import Mathlib

/-!
Shallow embedding of the home-server backend (Go).

The repository contains two deployment variants of the backend:
* `Mux`  — `src/backend/main.go` (gorilla/mux router): readings are
  `co2_level`/`temperature`, the sensor-history window is 24 hours, and
  there is a `POST /api/alarm/arm` endpoint that UPDATEs the latest row.
* `Echo` — `src/unnamed/part_000` (echo router): readings are
  `co2_level`/`sound_level`, the window is 7 days, responses carry an
  extra `current_time` field, and there is no arm endpoint.

The relational store is modelled as three lists of rows (insertion order,
SERIAL ids assigned as max existing id + 1).  Each HTTP handler becomes a
pure function from the store (plus the decoded request body, clock samples
for each `time.Now()` call in the handler, and fault-injection flags for
the fallible database operations) to an HTTP status, an optional response
body and the resulting store.  JSON encoding of responses is modelled just
deeply enough to talk about which keys an encoded object carries.
-/

/-- A JSON scalar value, enough to model the response bodies. -/
inductive JVal where
  | str : String → JVal
  | int : Int → JVal
  | bool : Bool → JVal
deriving DecidableEq

/-- A JSON object as an ordered list of key/value pairs, in the order the
Go `encoding/json` encoder emits struct fields. -/
def JObj : Type := List (String × JVal)

instance : DecidableEq JObj := by
  unfold JObj
  infer_instance

/-- Whether an encoded JSON object carries the given key. -/
def hasKey (o : JObj) (k : String) : Bool :=
  (List.map Prod.fst o).contains k

/-- `ORDER BY key DESC LIMIT 1`: the row of `l` with the largest key
(the later row wins ties), or `none` for an empty table. -/
def latestBy {α β : Type} [LinearOrder β] (key : α → β) : List α → Option α
  | [] => none
  | r :: rs =>
    match latestBy key rs with
    | none => some r
    | some b => if key r ≤ key b then some b else some r

/-- The largest value of `key` over a list, `0` for the empty list.  Used
to model the strictly increasing ids handed out by a SQL `SERIAL` column. -/
def keyMax {α : Type} (key : α → Nat) (l : List α) : Nat :=
  l.foldr (fun r m => max (key r) m) 0

/-- Fault-injection flags for the fallible database operations of the
device-update handler (`db.Begin`, the two `tx.Exec` inserts, `tx.Commit`
and the read-back `db.QueryRow`). -/
structure Faults where
  beginFails : Bool
  insertStatusFails : Bool
  insertSensorFails : Bool
  commitFails : Bool
  readbackFails : Bool
deriving DecidableEq

/-- The fault-free database. -/
def noFaults : Faults :=
  { beginFails := false, insertStatusFails := false, insertSensorFails := false,
    commitFails := false, readbackFails := false }

namespace Mux

/-- A `device_status` row; also the `Device` response struct of
`src/backend/main.go` (same fields, scanned straight from the row). -/
structure Device where
  id : Nat
  last_seen : Int
  error_code : Option String
  co2_level : Int
  temperature : Int
  alarm_active : Bool
  alarm_active_time : Int
deriving DecidableEq

/-- An `alarm_time` row (`id SERIAL, time TEXT, armed BOOLEAN`). -/
structure AlarmRow where
  id : Nat
  time : String
  armed : Bool
deriving DecidableEq

/-- The `AlarmTime` JSON struct (`time`, `armed`), used both as the body
of `POST /api/alarm` and as the alarm-configuration response. -/
structure AlarmTime where
  time : String
  armed : Bool
deriving DecidableEq

/-- A `sensor_data` row; also the `SensorData` response struct. -/
structure SensorData where
  timestamp : Int
  co2_level : Int
  temperature : Int
deriving DecidableEq

/-- The `DeviceUpdate` request body of `POST /api/device/update`. -/
structure DeviceUpdate where
  error_code : Option String
  co2_level : Int
  temperature : Int
  alarm_active : Bool
  alarm_active_time : Int
deriving DecidableEq

/-- The three tables of the relational store. -/
structure Store where
  device_status : List Device
  alarm_time : List AlarmRow
  sensor_data : List SensorData
deriving DecidableEq

/-- Outcome of one handler call: HTTP status, optional response body and
the store after the call. -/
structure HandlerResult (ρ : Type) where
  status : Nat
  body : Option ρ
  store : Store
deriving DecidableEq

/-- The next `SERIAL` id for `device_status`. -/
def nextDeviceId (l : List Device) : Nat :=
  keyMax (fun r => r.id) l + 1

/-- The next `SERIAL` id for `alarm_time`. -/
def nextAlarmId (l : List AlarmRow) : Nat :=
  keyMax (fun r => r.id) l + 1

/-- The Go zero value of `Device`, which is what the handler encodes when
the `device_status` table is empty (`sql.ErrNoRows` is not an error). -/
def zeroDevice : Device :=
  { id := 0, last_seen := 0, error_code := none, co2_level := 0, temperature := 0,
    alarm_active := false, alarm_active_time := 0 }

/-- `SELECT time, armed FROM alarm_time ORDER BY id DESC LIMIT 1`, with the
Go zero value `{"", false}` when the table is empty. -/
def currentAlarm (l : List AlarmRow) : AlarmTime :=
  match latestBy (fun r : AlarmRow => r.id) l with
  | none => { time := "", armed := false }
  | some r => { time := r.time, armed := r.armed }

/-- `GET /api/device/status`: latest `device_status` row by `last_seen`
(zero value when empty), encoded with implicit status 200; read-only. -/
def getDeviceStatus (s : Store) : HandlerResult Device :=
  { status := 200,
    body := some ((latestBy (fun r : Device => r.last_seen) s.device_status).getD zeroDevice),
    store := s }

/-- `GET /api/alarm`: latest `alarm_time` row by id (zero value when
empty), encoded with implicit status 200; read-only. -/
def getAlarmTime (s : Store) : HandlerResult AlarmTime :=
  { status := 200, body := some (currentAlarm s.alarm_time), store := s }

/-- `POST /api/alarm`: decode an `AlarmTime` body (400 on failure), then
`INSERT INTO alarm_time (time, armed) VALUES ($1, $2)` passing the body's
time and the literal `true`; respond 201 Created with no body. -/
def setAlarmTime (s : Store) (body : Option AlarmTime) : HandlerResult Unit :=
  match body with
  | none => { status := 400, body := none, store := s }
  | some a =>
    { status := 201, body := none,
      store := { s with alarm_time :=
        s.alarm_time ++ [{ id := nextAlarmId s.alarm_time, time := a.time, armed := true }] } }

/-- `POST /api/alarm/arm`: decode a `{armed}` body (400 on failure), then
`UPDATE alarm_time SET armed = $1 WHERE id = (SELECT id FROM alarm_time
ORDER BY id DESC LIMIT 1)`; respond 200 OK with no body.  On an empty
table the subquery is empty so the UPDATE matches no row. -/
def setAlarmArmed (s : Store) (body : Option Bool) : HandlerResult Unit :=
  match body with
  | none => { status := 400, body := none, store := s }
  | some b =>
    match latestBy (fun r : AlarmRow => r.id) s.alarm_time with
    | none => { status := 200, body := none, store := s }
    | some latest =>
      { status := 200, body := none,
        store := { s with alarm_time :=
          s.alarm_time.map (fun r => if r.id = latest.id then { r with armed := b } else r) } }

/-- Row order for `ORDER BY timestamp ASC`. -/
def sensorLE (a b : SensorData) : Prop :=
  a.timestamp ≤ b.timestamp

instance : DecidableRel sensorLE := by
  intro a b
  unfold sensorLE
  infer_instance

instance : IsTotal SensorData sensorLE :=
  ⟨fun a b => le_total a.timestamp b.timestamp⟩

instance : IsTrans SensorData sensorLE :=
  ⟨fun _ _ _ hab hbc => le_trans hab hbc⟩

/-- The fixed trailing window of `GET /api/sensor-data` in this variant:
`INTERVAL '24 hours'`, in seconds. -/
def windowSeconds : Int := 86400

/-- `GET /api/sensor-data`: the rows with
`timestamp > NOW() - INTERVAL '24 hours'`, in ascending timestamp order,
encoded with implicit status 200; read-only.  `now` is the server clock. -/
def getSensorData (s : Store) (now : Int) : HandlerResult (List SensorData) :=
  { status := 200,
    body := some (List.insertionSort sensorLE
      (s.sensor_data.filter (fun r => decide (now - windowSeconds < r.timestamp)))),
    store := s }

/-- `POST /api/device/update`: decode a `DeviceUpdate` body (400 on
failure before any database access); begin a transaction; insert one
`device_status` row stamped `time.Now()` (clock sample `t1`) and one
`sensor_data` row stamped `time.Now()` (clock sample `t2`); on any
begin/insert/commit failure respond 500 with the transaction rolled back;
after commit, read back the latest alarm configuration and respond 200
with it (500 if that read fails, the writes staying committed). -/
def handleDeviceUpdate (s : Store) (body : Option DeviceUpdate) (f : Faults)
    (t1 t2 : Int) : HandlerResult AlarmTime :=
  match body with
  | none => { status := 400, body := none, store := s }
  | some u =>
    if f.beginFails then { status := 500, body := none, store := s }
    else if f.insertStatusFails then { status := 500, body := none, store := s }
    else if f.insertSensorFails then { status := 500, body := none, store := s }
    else if f.commitFails then { status := 500, body := none, store := s }
    else
      let statusRow : Device :=
        { id := nextDeviceId s.device_status, last_seen := t1, error_code := u.error_code,
          co2_level := u.co2_level, temperature := u.temperature,
          alarm_active := u.alarm_active, alarm_active_time := u.alarm_active_time }
      let sensorRow : SensorData :=
        { timestamp := t2, co2_level := u.co2_level, temperature := u.temperature }
      let s' : Store :=
        { s with device_status := s.device_status ++ [statusRow],
                 sensor_data := s.sensor_data ++ [sensorRow] }
      if f.readbackFails then { status := 500, body := none, store := s' }
      else { status := 200, body := some (currentAlarm s'.alarm_time), store := s' }

/-- JSON encoding of the `AlarmTime` struct: field order `time`, `armed`;
no other key. -/
def encodeAlarmTime (a : AlarmTime) : JObj :=
  [("time", JVal.str a.time), ("armed", JVal.bool a.armed)]

/-- JSON encoding of the `Device` struct: field order of the Go struct,
`error_code` omitted when nil (`omitempty`); no `current_time` key exists
in this variant. -/
def encodeDevice (d : Device) : JObj :=
  [("id", JVal.int (d.id : Int)), ("last_seen", JVal.int d.last_seen)] ++
  (match d.error_code with
   | none => []
   | some e => [("error_code", JVal.str e)]) ++
  [("co2_level", JVal.int d.co2_level), ("temperature", JVal.int d.temperature),
   ("alarm_active", JVal.bool d.alarm_active),
   ("alarm_active_time", JVal.int d.alarm_active_time)]

/-- The empty store (all three tables empty). -/
def emptyStore : Store :=
  { device_status := [], alarm_time := [], sensor_data := [] }

/-- A sample device-update body used to instantiate theorems. -/
def sampleUpdate : DeviceUpdate :=
  { error_code := none, co2_level := 400, temperature := 21, alarm_active := false,
    alarm_active_time := 0 }

/-- A sample store with two alarm rows, used to instantiate theorems. -/
def sampleStore : Store :=
  { device_status := [],
    alarm_time := [{ id := 1, time := "06:00", armed := true },
                   { id := 2, time := "07:15", armed := false }],
    sensor_data := [] }

end Mux

namespace Echo

/-- A `device_status` row of the echo variant
(`sound_level` instead of `temperature`). -/
structure DeviceRow where
  id : Nat
  last_seen : Int
  error_code : Option String
  co2_level : Int
  sound_level : Int
  alarm_active : Bool
  alarm_active_time : Int
deriving DecidableEq

/-- The `Device` JSON response of `GET /device/status` in this variant:
the row fields plus the server-filled `current_time` Unix timestamp. -/
structure Device where
  id : Nat
  last_seen : Int
  error_code : Option String
  co2_level : Int
  sound_level : Int
  alarm_active : Bool
  alarm_active_time : Int
  current_time : Int
deriving DecidableEq

/-- An `alarm_time` row (same schema as the mux variant). -/
structure AlarmRow where
  id : Nat
  time : String
  armed : Bool
deriving DecidableEq

/-- The `AlarmTime` JSON struct (`time`, `armed`). -/
structure AlarmTime where
  time : String
  armed : Bool
deriving DecidableEq

/-- A `sensor_data` row; also the `SensorData` response struct. -/
structure SensorData where
  timestamp : Int
  co2_level : Int
  sound_level : Int
deriving DecidableEq

/-- The `DeviceUpdate` request body of `POST /device/update`. -/
structure DeviceUpdate where
  error_code : Option String
  co2_level : Int
  sound_level : Int
  alarm_active : Bool
  alarm_active_time : Int
deriving DecidableEq

/-- The anonymous response struct of the device-update handler:
`time`, `armed` and the server's `current_time`. -/
structure DeviceUpdateResponse where
  time : String
  armed : Bool
  current_time : Int
deriving DecidableEq

/-- The three tables of the relational store. -/
structure Store where
  device_status : List DeviceRow
  alarm_time : List AlarmRow
  sensor_data : List SensorData
deriving DecidableEq

/-- Outcome of one handler call. -/
structure HandlerResult (ρ : Type) where
  status : Nat
  body : Option ρ
  store : Store
deriving DecidableEq

/-- The next `SERIAL` id for `device_status`. -/
def nextDeviceId (l : List DeviceRow) : Nat :=
  keyMax (fun r => r.id) l + 1

/-- The next `SERIAL` id for `alarm_time`. -/
def nextAlarmId (l : List AlarmRow) : Nat :=
  keyMax (fun r => r.id) l + 1

/-- The Go zero value of the scanned row fields, used when the
`device_status` table is empty. -/
def zeroDeviceRow : DeviceRow :=
  { id := 0, last_seen := 0, error_code := none, co2_level := 0, sound_level := 0,
    alarm_active := false, alarm_active_time := 0 }

/-- Build the `Device` response from a row, filling `current_time` with
the server clock (`time.Now().Unix()`). -/
def deviceOfRow (r : DeviceRow) (now : Int) : Device :=
  { id := r.id, last_seen := r.last_seen, error_code := r.error_code,
    co2_level := r.co2_level, sound_level := r.sound_level,
    alarm_active := r.alarm_active, alarm_active_time := r.alarm_active_time,
    current_time := now }

/-- `SELECT time, armed FROM alarm_time ORDER BY id DESC LIMIT 1`, zero
value when empty. -/
def currentAlarm (l : List AlarmRow) : AlarmTime :=
  match latestBy (fun r : AlarmRow => r.id) l with
  | none => { time := "", armed := false }
  | some r => { time := r.time, armed := r.armed }

/-- `GET /device/status`: latest row by `last_seen` (zero value when
empty) with `current_time := time.Now().Unix()`, status 200; read-only. -/
def getDeviceStatus (s : Store) (now : Int) : HandlerResult Device :=
  { status := 200,
    body := some (deviceOfRow
      ((latestBy (fun r : DeviceRow => r.last_seen) s.device_status).getD zeroDeviceRow) now),
    store := s }

/-- `GET /alarm`: latest alarm row (zero value when empty), status 200;
read-only. -/
def getAlarmTime (s : Store) : HandlerResult AlarmTime :=
  { status := 200, body := some (currentAlarm s.alarm_time), store := s }

/-- `POST /alarm`: decode (400 on failure), insert `(time, true)`,
respond 201 Created with no content. -/
def setAlarmTime (s : Store) (body : Option AlarmTime) : HandlerResult Unit :=
  match body with
  | none => { status := 400, body := none, store := s }
  | some a =>
    { status := 201, body := none,
      store := { s with alarm_time :=
        s.alarm_time ++ [{ id := nextAlarmId s.alarm_time, time := a.time, armed := true }] } }

/-- Row order for `ORDER BY timestamp ASC`. -/
def sensorLE (a b : SensorData) : Prop :=
  a.timestamp ≤ b.timestamp

instance : DecidableRel sensorLE := by
  intro a b
  unfold sensorLE
  infer_instance

instance : IsTotal SensorData sensorLE :=
  ⟨fun a b => le_total a.timestamp b.timestamp⟩

instance : IsTrans SensorData sensorLE :=
  ⟨fun _ _ _ hab hbc => le_trans hab hbc⟩

/-- The fixed trailing window of `GET /sensor-data` in this variant:
`INTERVAL '7 days'`, in seconds. -/
def windowSeconds : Int := 604800

/-- `GET /sensor-data`: rows with `timestamp > NOW() - INTERVAL '7 days'`
in ascending timestamp order, status 200; read-only. -/
def getSensorData (s : Store) (now : Int) : HandlerResult (List SensorData) :=
  { status := 200,
    body := some (List.insertionSort sensorLE
      (s.sensor_data.filter (fun r => decide (now - windowSeconds < r.timestamp)))),
    store := s }

/-- `POST /device/update`: decode (400 before any database access on
failure); transactionally insert one `device_status` row (clock `t1`) and
one `sensor_data` row (clock `t2`); 500 with full rollback on any
begin/insert/commit failure; after commit read back the alarm
configuration and respond 200 with `{time, armed, current_time := t3}`
(500 if the read-back fails, the writes staying committed). -/
def handleDeviceUpdate (s : Store) (body : Option DeviceUpdate) (f : Faults)
    (t1 t2 t3 : Int) : HandlerResult DeviceUpdateResponse :=
  match body with
  | none => { status := 400, body := none, store := s }
  | some u =>
    if f.beginFails then { status := 500, body := none, store := s }
    else if f.insertStatusFails then { status := 500, body := none, store := s }
    else if f.insertSensorFails then { status := 500, body := none, store := s }
    else if f.commitFails then { status := 500, body := none, store := s }
    else
      let statusRow : DeviceRow :=
        { id := nextDeviceId s.device_status, last_seen := t1, error_code := u.error_code,
          co2_level := u.co2_level, sound_level := u.sound_level,
          alarm_active := u.alarm_active, alarm_active_time := u.alarm_active_time }
      let sensorRow : SensorData :=
        { timestamp := t2, co2_level := u.co2_level, sound_level := u.sound_level }
      let s' : Store :=
        { s with device_status := s.device_status ++ [statusRow],
                 sensor_data := s.sensor_data ++ [sensorRow] }
      if f.readbackFails then { status := 500, body := none, store := s' }
      else
        let a := currentAlarm s'.alarm_time
        { status := 200,
          body := some { time := a.time, armed := a.armed, current_time := t3 },
          store := s' }

/-- JSON encoding of the device-update response: `time`, `armed`,
`current_time`. -/
def encodeDeviceUpdateResponse (r : DeviceUpdateResponse) : JObj :=
  [("time", JVal.str r.time), ("armed", JVal.bool r.armed),
   ("current_time", JVal.int r.current_time)]

/-- JSON encoding of the `Device` response (`error_code` has
`omitempty`). -/
def encodeDevice (d : Device) : JObj :=
  [("id", JVal.int (d.id : Int)), ("last_seen", JVal.int d.last_seen)] ++
  (match d.error_code with
   | none => []
   | some e => [("error_code", JVal.str e)]) ++
  [("co2_level", JVal.int d.co2_level), ("sound_level", JVal.int d.sound_level),
   ("alarm_active", JVal.bool d.alarm_active),
   ("alarm_active_time", JVal.int d.alarm_active_time),
   ("current_time", JVal.int d.current_time)]

/-- The empty store. -/
def emptyStore : Store :=
  { device_status := [], alarm_time := [], sensor_data := [] }

/-- A sample device-update body used to instantiate theorems. -/
def sampleUpdate : DeviceUpdate :=
  { error_code := none, co2_level := 400, sound_level := 30, alarm_active := false,
    alarm_active_time := 0 }

end Echo

/-! ### Helper lemmas about the query model -/

theorem latestBy_eq_none_iff {α β : Type} [LinearOrder β] (key : α → β) :
    ∀ l : List α, latestBy key l = none ↔ l = [] := by
  intro l
  induction l with
  | nil => simp [latestBy]
  | cons r rs ih =>
    simp only [latestBy]
    constructor
    · intro h
      cases hrec : latestBy key rs with
      | none => rw [hrec] at h; exact absurd h (by simp)
      | some b =>
        rw [hrec] at h
        by_cases hle : key r ≤ key b <;> simp [hle] at h
    · intro h
      exact absurd h (by simp)

theorem latestBy_mem {α β : Type} [LinearOrder β] (key : α → β) :
    ∀ {l : List α} {r : α}, latestBy key l = some r → r ∈ l := by
  intro l
  induction l with
  | nil => intro r h; exact absurd h (by simp [latestBy])
  | cons a rs ih =>
    intro r h
    simp only [latestBy] at h
    cases hrec : latestBy key rs with
    | none =>
      rw [hrec] at h
      simp at h
      simp [h]
    | some b =>
      rw [hrec] at h
      by_cases hle : key a ≤ key b
      · simp [hle] at h
        exact List.mem_cons_of_mem a (ih (h ▸ hrec))
      · simp [hle] at h
        simp [h]

theorem latestBy_le {α β : Type} [LinearOrder β] (key : α → β) :
    ∀ {l : List α} {r : α}, latestBy key l = some r → ∀ x ∈ l, key x ≤ key r := by
  intro l
  induction l with
  | nil => intro r h; exact absurd h (by simp [latestBy])
  | cons a rs ih =>
    intro r h x hx
    simp only [latestBy] at h
    cases hrec : latestBy key rs with
    | none =>
      rw [hrec] at h
      simp at h
      have hnil : rs = [] := (latestBy_eq_none_iff key rs).mp hrec
      subst hnil
      simp at hx
      subst hx
      exact le_of_eq (congrArg key h)
    | some b =>
      rw [hrec] at h
      rcases List.mem_cons.mp hx with hxa | hxrs
      · subst hxa
        by_cases hle : key x ≤ key b
        · simp [hle] at h
          exact h ▸ hle
        · simp [hle] at h
          exact le_of_eq (congrArg key h)
      · have hxb : key x ≤ key b := ih hrec x hxrs
        by_cases hle : key a ≤ key b
        · simp [hle] at h
          exact h ▸ hxb
        · simp [hle] at h
          exact le_trans hxb (le_of_lt (h ▸ lt_of_not_le hle))

theorem latestBy_append_singleton {α β : Type} [LinearOrder β] (key : α → β)
    {l : List α} {r : α} (h : ∀ x ∈ l, key x < key r) :
    latestBy key (l ++ [r]) = some r := by
  induction l with
  | nil => simp [latestBy]
  | cons a rs ih =>
    have hrec : latestBy key (rs ++ [r]) = some r :=
      ih (fun x hx => h x (List.mem_cons_of_mem a hx))
    have ha : key a < key r := h a (List.mem_cons_self a rs)
    simp only [List.cons_append, latestBy, List.append_eq, hrec]
    rw [if_pos (le_of_lt ha)]

theorem le_keyMax {α : Type} (key : α → Nat) :
    ∀ {l : List α} {r : α}, r ∈ l → key r ≤ keyMax key l := by
  intro l
  induction l with
  | nil => intro r h; exact absurd h (by simp)
  | cons a rs ih =>
    intro r h
    rcases List.mem_cons.mp h with ha | hrs
    · subst ha
      exact le_max_left _ _
    · exact le_trans (ih hrs) (le_max_right _ _)

theorem mux_id_lt_nextAlarmId {l : List Mux.AlarmRow} {r : Mux.AlarmRow} (h : r ∈ l) :
    r.id < Mux.nextAlarmId l := by
  have hk : r.id ≤ keyMax (fun r : Mux.AlarmRow => r.id) l := le_keyMax _ h
  unfold Mux.nextAlarmId
  omega

theorem echo_id_lt_nextAlarmId {l : List Echo.AlarmRow} {r : Echo.AlarmRow} (h : r ∈ l) :
    r.id < Echo.nextAlarmId l := by
  have hk : r.id ≤ keyMax (fun r : Echo.AlarmRow => r.id) l := le_keyMax _ h
  unfold Echo.nextAlarmId
  omega

theorem mux_currentAlarm_append (l : List Mux.AlarmRow) (t : String) (b : Bool) :
    Mux.currentAlarm (l ++ [{ id := Mux.nextAlarmId l, time := t, armed := b }])
      = { time := t, armed := b } := by
  unfold Mux.currentAlarm
  rw [latestBy_append_singleton (fun r : Mux.AlarmRow => r.id)
    (fun x hx => mux_id_lt_nextAlarmId hx)]

theorem echo_currentAlarm_append (l : List Echo.AlarmRow) (t : String) (b : Bool) :
    Echo.currentAlarm (l ++ [{ id := Echo.nextAlarmId l, time := t, armed := b }])
      = { time := t, armed := b } := by
  unfold Echo.currentAlarm
  rw [latestBy_append_singleton (fun r : Echo.AlarmRow => r.id)
    (fun x hx => echo_id_lt_nextAlarmId hx)]

theorem mux_currentAlarm_spec {l : List Mux.AlarmRow} (h : l ≠ []) :
    ∃ r ∈ l, (∀ x ∈ l, x.id ≤ r.id) ∧
      Mux.currentAlarm l = { time := r.time, armed := r.armed } := by
  cases hl : latestBy (fun r : Mux.AlarmRow => r.id) l with
  | none => exact absurd ((latestBy_eq_none_iff _ l).mp hl) h
  | some r =>
    refine ⟨r, latestBy_mem _ hl, latestBy_le _ hl, ?_⟩
    unfold Mux.currentAlarm
    rw [hl]

theorem echo_currentAlarm_spec {l : List Echo.AlarmRow} (h : l ≠ []) :
    ∃ r ∈ l, (∀ x ∈ l, x.id ≤ r.id) ∧
      Echo.currentAlarm l = { time := r.time, armed := r.armed } := by
  cases hl : latestBy (fun r : Echo.AlarmRow => r.id) l with
  | none => exact absurd ((latestBy_eq_none_iff _ l).mp hl) h
  | some r =>
    refine ⟨r, latestBy_mem _ hl, latestBy_le _ hl, ?_⟩
    unfold Echo.currentAlarm
    rw [hl]

/-! ### Claim theorems -/

/-- C5: from any store state, `POST /api/alarm` with body `{time: "07:30"}`
(whose absent `armed` decodes to the Go zero value `false`) returns
201 Created, and a subsequent `GET /api/alarm` returns
`{time: "07:30", armed: true}`, because the insert writes `armed = true`. -/
theorem C5_alarm_roundtrip (s : Mux.Store) :
    (Mux.setAlarmTime s (some { time := "07:30", armed := false })).status = 201 ∧
    (Mux.getAlarmTime (Mux.setAlarmTime s (some { time := "07:30", armed := false })).store).status
      = 200 ∧
    (Mux.getAlarmTime (Mux.setAlarmTime s (some { time := "07:30", armed := false })).store).body
      = some { time := "07:30", armed := true } := by
  refine ⟨rfl, rfl, ?_⟩
  show some (Mux.currentAlarm (s.alarm_time ++
    [{ id := Mux.nextAlarmId s.alarm_time, time := "07:30", armed := true }])) = _
  rw [mux_currentAlarm_append]

/-- C6: a device-update request whose body does not decode as JSON fails
with status 400 before touching the database, so the store is unchanged
(both backend variants). -/
theorem C6_malformed_body_rejected (s : Mux.Store) (se : Echo.Store) (f : Faults)
    (t1 t2 t3 : Int) :
    Mux.handleDeviceUpdate s none f t1 t2 = { status := 400, body := none, store := s } ∧
    Echo.handleDeviceUpdate se none f t1 t2 t3 = { status := 400, body := none, store := se } :=
  ⟨rfl, rfl⟩

/-- C9: `POST /api/alarm` inserts the new `alarm_time` row with
`armed = true` regardless of the `armed` value supplied in the body: for a
body `{time: t, armed: false}` the stored configuration read back is
`{time: t, armed: true}` (both backend variants). -/
theorem C9_armed_forced_true (s : Mux.Store) (se : Echo.Store) (t : String) :
    (Mux.setAlarmTime s (some { time := t, armed := false })).status = 201 ∧
    (Mux.getAlarmTime (Mux.setAlarmTime s (some { time := t, armed := false })).store).body
      = some { time := t, armed := true } ∧
    (Echo.setAlarmTime se (some { time := t, armed := false })).status = 201 ∧
    (Echo.getAlarmTime (Echo.setAlarmTime se (some { time := t, armed := false })).store).body
      = some { time := t, armed := true } := by
  refine ⟨rfl, ?_, rfl, ?_⟩
  · show some (Mux.currentAlarm (s.alarm_time ++
      [{ id := Mux.nextAlarmId s.alarm_time, time := t, armed := true }])) = _
    rw [mux_currentAlarm_append]
  · show some (Echo.currentAlarm (se.alarm_time ++
      [{ id := Echo.nextAlarmId se.alarm_time, time := t, armed := true }])) = _
    rw [echo_currentAlarm_append]

/-- C10: when the `alarm_time` table is empty, `POST /api/alarm/arm` with a
well-formed boolean body still returns 200 OK and leaves the whole store
unchanged: the UPDATE's id subquery is empty, so no row matches and no
error is reported. -/
theorem C10_arm_empty_table_noop (s : Mux.Store) (b : Bool) (h : s.alarm_time = []) :
    Mux.setAlarmArmed s (some b) = { status := 200, body := none, store := s } := by
  unfold Mux.setAlarmArmed
  rw [h]
  rfl

/-- Witness for C10 at the empty store with body `true`. -/
theorem C10_arm_empty_table_noop_witness :
    Mux.setAlarmArmed Mux.emptyStore (some true)
      = { status := 200, body := none, store := Mux.emptyStore } :=
  C10_arm_empty_table_noop Mux.emptyStore true rfl

/-- C1: for every device-update request with a well-formed body, on the
fault-free path exactly one `device_status` row and one `sensor_data` row
are appended (and `alarm_time` is untouched); if the transaction begin,
either insert, or the commit fails, the whole transaction is rolled back,
the store is exactly as before, and the request fails with status 500
(both backend variants). -/
theorem C1_device_update_atomic (s : Mux.Store) (se : Echo.Store)
    (u : Mux.DeviceUpdate) (ue : Echo.DeviceUpdate) (f : Faults) (t1 t2 t3 : Int) :
    ((f.beginFails || f.insertStatusFails || f.insertSensorFails || f.commitFails) = true →
      (Mux.handleDeviceUpdate s (some u) f t1 t2).status = 500 ∧
      (Mux.handleDeviceUpdate s (some u) f t1 t2).store = s ∧
      (Echo.handleDeviceUpdate se (some ue) f t1 t2 t3).status = 500 ∧
      (Echo.handleDeviceUpdate se (some ue) f t1 t2 t3).store = se) ∧
    ((f.beginFails || f.insertStatusFails || f.insertSensorFails || f.commitFails) = false →
      (∃ dr sr,
        (Mux.handleDeviceUpdate s (some u) f t1 t2).store.device_status
          = s.device_status ++ [dr] ∧
        (Mux.handleDeviceUpdate s (some u) f t1 t2).store.sensor_data
          = s.sensor_data ++ [sr] ∧
        (Mux.handleDeviceUpdate s (some u) f t1 t2).store.alarm_time = s.alarm_time) ∧
      (∃ dr sr,
        (Echo.handleDeviceUpdate se (some ue) f t1 t2 t3).store.device_status
          = se.device_status ++ [dr] ∧
        (Echo.handleDeviceUpdate se (some ue) f t1 t2 t3).store.sensor_data
          = se.sensor_data ++ [sr] ∧
        (Echo.handleDeviceUpdate se (some ue) f t1 t2 t3).store.alarm_time = se.alarm_time)) := by
  obtain ⟨b1, b2, b3, b4, b5⟩ := f
  constructor
  · intro h
    cases b1 <;> cases b2 <;> cases b3 <;> cases b4 <;>
      simp_all [Mux.handleDeviceUpdate, Echo.handleDeviceUpdate]
  · intro h
    simp only [Bool.or_eq_false_iff] at h
    obtain ⟨⟨⟨h1, h2⟩, h3⟩, h4⟩ := h
    subst h1; subst h2; subst h3; subst h4
    cases b5 <;>
      exact ⟨⟨_, _, rfl, rfl, rfl⟩, ⟨_, _, rfl, rfl, rfl⟩⟩

/-- Witness for C1: the rollback branch at a commit failure and the
fault-free append branch, both at concrete inputs. -/
theorem C1_device_update_atomic_witness :
    ((Mux.handleDeviceUpdate Mux.sampleStore (some Mux.sampleUpdate)
        { noFaults with commitFails := true } 5 6).store = Mux.sampleStore) ∧
    (∃ dr sr,
      (Mux.handleDeviceUpdate Mux.sampleStore (some Mux.sampleUpdate)
          noFaults 5 6).store.device_status = Mux.sampleStore.device_status ++ [dr] ∧
      (Mux.handleDeviceUpdate Mux.sampleStore (some Mux.sampleUpdate)
          noFaults 5 6).store.sensor_data = Mux.sampleStore.sensor_data ++ [sr] ∧
      (Mux.handleDeviceUpdate Mux.sampleStore (some Mux.sampleUpdate)
          noFaults 5 6).store.alarm_time = Mux.sampleStore.alarm_time) :=
  ⟨((C1_device_update_atomic Mux.sampleStore Echo.emptyStore Mux.sampleUpdate
      Echo.sampleUpdate { noFaults with commitFails := true } 5 6 7).1 (by decide)).2.1,
   ((C1_device_update_atomic Mux.sampleStore Echo.emptyStore Mux.sampleUpdate
      Echo.sampleUpdate noFaults 5 6 7).2 (by decide)).1⟩

/-- C7: on the fault-free path the inserted `device_status` row's
`last_seen` equals the server clock sample `t1` taken at the first insert
and the inserted `sensor_data` row's timestamp equals the sample `t2` of
the second insert — never a value from the request body, as witnessed by
the inserted timestamps being the same for every payload — and whenever
the request's clock samples lie between request start and request end,
so does `last_seen` (both backend variants). -/
theorem C7_timestamps_server_assigned (s : Mux.Store) (se : Echo.Store)
    (u : Mux.DeviceUpdate) (ue : Echo.DeviceUpdate) (t1 t2 t3 tstart tend : Int)
    (hs : tstart ≤ t1) (he : t1 ≤ tend) :
    (∃ dr sr,
      (Mux.handleDeviceUpdate s (some u) noFaults t1 t2).store.device_status
        = s.device_status ++ [dr] ∧
      (Mux.handleDeviceUpdate s (some u) noFaults t1 t2).store.sensor_data
        = s.sensor_data ++ [sr] ∧
      dr.last_seen = t1 ∧ sr.timestamp = t2 ∧
      tstart ≤ dr.last_seen ∧ dr.last_seen ≤ tend) ∧
    (∀ u' : Mux.DeviceUpdate,
      (Mux.handleDeviceUpdate s (some u') noFaults t1 t2).store.device_status.map
          (fun r => r.last_seen)
        = s.device_status.map (fun r => r.last_seen) ++ [t1] ∧
      (Mux.handleDeviceUpdate s (some u') noFaults t1 t2).store.sensor_data.map
          (fun r => r.timestamp)
        = s.sensor_data.map (fun r => r.timestamp) ++ [t2]) ∧
    (∃ dr sr,
      (Echo.handleDeviceUpdate se (some ue) noFaults t1 t2 t3).store.device_status
        = se.device_status ++ [dr] ∧
      (Echo.handleDeviceUpdate se (some ue) noFaults t1 t2 t3).store.sensor_data
        = se.sensor_data ++ [sr] ∧
      dr.last_seen = t1 ∧ sr.timestamp = t2 ∧
      tstart ≤ dr.last_seen ∧ dr.last_seen ≤ tend) ∧
    (∀ ue' : Echo.DeviceUpdate,
      (Echo.handleDeviceUpdate se (some ue') noFaults t1 t2 t3).store.device_status.map
          (fun r => r.last_seen)
        = se.device_status.map (fun r => r.last_seen) ++ [t1] ∧
      (Echo.handleDeviceUpdate se (some ue') noFaults t1 t2 t3).store.sensor_data.map
          (fun r => r.timestamp)
        = se.sensor_data.map (fun r => r.timestamp) ++ [t2]) := by
  refine ⟨⟨_, _, rfl, rfl, rfl, rfl, hs, he⟩, ?_, ⟨_, _, rfl, rfl, rfl, rfl, hs, he⟩, ?_⟩
  · intro u'
    exact ⟨by simp [Mux.handleDeviceUpdate, noFaults], by simp [Mux.handleDeviceUpdate, noFaults]⟩
  · intro ue'
    exact ⟨by simp [Echo.handleDeviceUpdate, noFaults], by simp [Echo.handleDeviceUpdate, noFaults]⟩

/-- Witness for C7 at concrete stores, payloads and clock samples. -/
theorem C7_timestamps_server_assigned_witness :
    (∃ dr sr,
      (Mux.handleDeviceUpdate Mux.emptyStore (some Mux.sampleUpdate)
          noFaults 5 6).store.device_status = Mux.emptyStore.device_status ++ [dr] ∧
      (Mux.handleDeviceUpdate Mux.emptyStore (some Mux.sampleUpdate)
          noFaults 5 6).store.sensor_data = Mux.emptyStore.sensor_data ++ [sr] ∧
      dr.last_seen = 5 ∧ sr.timestamp = 6 ∧
      (4 : Int) ≤ dr.last_seen ∧ dr.last_seen ≤ 9) :=
  (C7_timestamps_server_assigned Mux.emptyStore Echo.emptyStore Mux.sampleUpdate
    Echo.sampleUpdate 5 6 7 4 9 (by decide) (by decide)).1

/-- C4: `GET /api/sensor-data` returns, with status 200 and no change to
the store, exactly the `sensor_data` rows whose timestamp lies within the
fixed trailing window — strictly newer than `now` minus 24 hours in the
mux variant and 7 days in the echo variant — in non-decreasing timestamp
order; when no row falls in the window the result is the empty sequence,
not an error. -/
theorem C4_sensor_window (s : Mux.Store) (se : Echo.Store) (now : Int) :
    ((Mux.getSensorData s now).status = 200 ∧
     (Mux.getSensorData s now).store = s ∧
     ∃ l, (Mux.getSensorData s now).body = some l ∧
       l.Perm (s.sensor_data.filter
         (fun r => decide (now - Mux.windowSeconds < r.timestamp))) ∧
       l.Pairwise (fun a b => a.timestamp ≤ b.timestamp) ∧
       (s.sensor_data.filter (fun r => decide (now - Mux.windowSeconds < r.timestamp)) = [] →
         l = [])) ∧
    ((Echo.getSensorData se now).status = 200 ∧
     (Echo.getSensorData se now).store = se ∧
     ∃ l, (Echo.getSensorData se now).body = some l ∧
       l.Perm (se.sensor_data.filter
         (fun r => decide (now - Echo.windowSeconds < r.timestamp))) ∧
       l.Pairwise (fun a b => a.timestamp ≤ b.timestamp) ∧
       (se.sensor_data.filter (fun r => decide (now - Echo.windowSeconds < r.timestamp)) = [] →
         l = [])) := by
  constructor
  · refine ⟨rfl, rfl, _, rfl, List.perm_insertionSort _ _, ?_, ?_⟩
    · exact List.sorted_insertionSort Mux.sensorLE _
    · intro hfil
      have hp := List.perm_insertionSort Mux.sensorLE
        (s.sensor_data.filter (fun r => decide (now - Mux.windowSeconds < r.timestamp)))
      exact (hp.trans (by rw [hfil])).eq_nil
  · refine ⟨rfl, rfl, _, rfl, List.perm_insertionSort _ _, ?_, ?_⟩
    · exact List.sorted_insertionSort Echo.sensorLE _
    · intro hfil
      have hp := List.perm_insertionSort Echo.sensorLE
        (se.sensor_data.filter (fun r => decide (now - Echo.windowSeconds < r.timestamp)))
      exact (hp.trans (by rw [hfil])).eq_nil

/-- Witness for C4: at the empty store the window holds no row, and the
empty-window hypothesis is discharged, giving the empty response. -/
theorem C4_sensor_window_witness :
    (Mux.getSensorData Mux.emptyStore 0).status = 200 ∧
    (Mux.getSensorData Mux.emptyStore 0).body = some [] := by
  obtain ⟨hst, -, l, hb, -, -, himp⟩ := (C4_sensor_window Mux.emptyStore Echo.emptyStore 0).1
  rw [hst, hb, himp rfl]
  exact ⟨rfl, rfl⟩

theorem mux_encodeDevice_no_current_time (d : Mux.Device) :
    hasKey (Mux.encodeDevice d) "current_time" = false := by
  obtain ⟨i, ls, ec, co, te, aa, aat⟩ := d
  cases ec <;> rfl

theorem echo_encodeDevice_has_current_time (d : Echo.Device) :
    hasKey (Echo.encodeDevice d) "current_time" = true := by
  obtain ⟨i, ls, ec, co, snd, aa, aat, ct⟩ := d
  cases ec <;> rfl

/-- C3 counterexample: in the mux variant (`src/backend/main.go`) a
`GET /api/device/status` on the empty store succeeds with status 200 and
the zero-valued default object, but the encoded response has no
`current_time` key, contradicting the claim that the response carries the
server's current Unix time in a `current_time` field. -/
theorem C3_counterexample_no_current_time :
    (Mux.getDeviceStatus Mux.emptyStore).status = 200 ∧
    (Mux.getDeviceStatus Mux.emptyStore).body = some Mux.zeroDevice ∧
    hasKey (Mux.encodeDevice Mux.zeroDevice) "current_time" = false :=
  ⟨rfl, rfl, rfl⟩

/-- C3 (amended): `GET /api/device/status` returns, with status 200 and no
side effect on the store, the `device_status` row with maximum `last_seen`
(a zero-valued default object when the table is empty, absence of rows not
being an error); the echo variant's response additionally carries the
server's current Unix time in a `current_time` field, while the mux
variant's response has no such field. -/
theorem C3_amended_device_status (s : Mux.Store) (se : Echo.Store) (now : Int) :
    (Mux.getDeviceStatus s).status = 200 ∧
    (Mux.getDeviceStatus s).store = s ∧
    (Mux.getDeviceStatus s).body.isSome = true ∧
    ((s.device_status = [] ∧ (Mux.getDeviceStatus s).body = some Mux.zeroDevice) ∨
      ∃ r ∈ s.device_status, (∀ x ∈ s.device_status, x.last_seen ≤ r.last_seen) ∧
        (Mux.getDeviceStatus s).body = some r) ∧
    hasKey (Mux.encodeDevice ((Mux.getDeviceStatus s).body.getD Mux.zeroDevice))
      "current_time" = false ∧
    (Echo.getDeviceStatus se now).status = 200 ∧
    (Echo.getDeviceStatus se now).store = se ∧
    (Echo.getDeviceStatus se now).body.isSome = true ∧
    ((se.device_status = [] ∧
        (Echo.getDeviceStatus se now).body = some (Echo.deviceOfRow Echo.zeroDeviceRow now)) ∨
      ∃ r ∈ se.device_status, (∀ x ∈ se.device_status, x.last_seen ≤ r.last_seen) ∧
        (Echo.getDeviceStatus se now).body = some (Echo.deviceOfRow r now)) ∧
    ((Echo.getDeviceStatus se now).body.getD
        (Echo.deviceOfRow Echo.zeroDeviceRow now)).current_time = now ∧
    hasKey (Echo.encodeDevice ((Echo.getDeviceStatus se now).body.getD
        (Echo.deviceOfRow Echo.zeroDeviceRow now))) "current_time" = true := by
  refine ⟨rfl, rfl, rfl, ?_, mux_encodeDevice_no_current_time _, rfl, rfl, rfl, ?_, rfl,
    echo_encodeDevice_has_current_time _⟩
  · cases hl : latestBy (fun r : Mux.Device => r.last_seen) s.device_status with
    | none =>
      left
      have hnil := (latestBy_eq_none_iff _ _).mp hl
      exact ⟨hnil, by simp [Mux.getDeviceStatus, hl]⟩
    | some r =>
      right
      exact ⟨r, latestBy_mem _ hl, latestBy_le _ hl, by simp [Mux.getDeviceStatus, hl]⟩
  · cases hl : latestBy (fun r : Echo.DeviceRow => r.last_seen) se.device_status with
    | none =>
      left
      have hnil := (latestBy_eq_none_iff _ _).mp hl
      exact ⟨hnil, by simp [Echo.getDeviceStatus, hl]⟩
    | some r =>
      right
      exact ⟨r, latestBy_mem _ hl, latestBy_le _ hl, by simp [Echo.getDeviceStatus, hl]⟩

/-- C2 counterexample: in the mux variant (`src/backend/main.go`) a
successful device update against a store with alarm rows responds 200 with
just the alarm configuration `{time, armed}`; the encoded response has no
`current_time` key, contradicting the claim that every successful
device-update response carries the server's current Unix timestamp. -/
theorem C2_counterexample_no_current_time :
    (Mux.handleDeviceUpdate Mux.sampleStore (some Mux.sampleUpdate) noFaults 5 6).status
      = 200 ∧
    ((Mux.handleDeviceUpdate Mux.sampleStore (some Mux.sampleUpdate) noFaults 5 6).body.map
        Mux.encodeAlarmTime)
      = some [("time", JVal.str "07:15"), ("armed", JVal.bool false)] ∧
    hasKey (((Mux.handleDeviceUpdate Mux.sampleStore (some Mux.sampleUpdate)
        noFaults 5 6).body.map Mux.encodeAlarmTime).getD []) "current_time" = false :=
  ⟨rfl, rfl, rfl⟩

/-- C2 (amended): every fault-free device-update request responds 200 with
the current alarm configuration — the `time` and `armed` fields of the
`alarm_time` row with maximum id in the store after the write transaction
commits, zero values when the table is empty; the echo variant's response
additionally carries the server's current Unix timestamp in a
`current_time` field, while the mux variant's response has only the `time`
and `armed` fields. -/
theorem C2_amended_update_response (s : Mux.Store) (se : Echo.Store)
    (u : Mux.DeviceUpdate) (ue : Echo.DeviceUpdate) (t1 t2 t3 : Int) :
    (Mux.handleDeviceUpdate s (some u) noFaults t1 t2).status = 200 ∧
    (Mux.handleDeviceUpdate s (some u) noFaults t1 t2).body
      = some (Mux.currentAlarm
          (Mux.handleDeviceUpdate s (some u) noFaults t1 t2).store.alarm_time) ∧
    (Mux.handleDeviceUpdate s (some u) noFaults t1 t2).store.alarm_time = s.alarm_time ∧
    ((s.alarm_time = [] ∧ Mux.currentAlarm s.alarm_time = { time := "", armed := false }) ∨
      ∃ r ∈ s.alarm_time, (∀ x ∈ s.alarm_time, x.id ≤ r.id) ∧
        Mux.currentAlarm s.alarm_time = { time := r.time, armed := r.armed }) ∧
    hasKey (Mux.encodeAlarmTime ((Mux.handleDeviceUpdate s (some u) noFaults t1 t2).body.getD
        { time := "", armed := false })) "current_time" = false ∧
    (Echo.handleDeviceUpdate se (some ue) noFaults t1 t2 t3).status = 200 ∧
    (Echo.handleDeviceUpdate se (some ue) noFaults t1 t2 t3).body
      = some { time := (Echo.currentAlarm se.alarm_time).time,
               armed := (Echo.currentAlarm se.alarm_time).armed,
               current_time := t3 } ∧
    (Echo.handleDeviceUpdate se (some ue) noFaults t1 t2 t3).store.alarm_time
      = se.alarm_time ∧
    ((se.alarm_time = [] ∧
        Echo.currentAlarm se.alarm_time = { time := "", armed := false }) ∨
      ∃ r ∈ se.alarm_time, (∀ x ∈ se.alarm_time, x.id ≤ r.id) ∧
        Echo.currentAlarm se.alarm_time = { time := r.time, armed := r.armed }) ∧
    hasKey (Echo.encodeDeviceUpdateResponse
        ((Echo.handleDeviceUpdate se (some ue) noFaults t1 t2 t3).body.getD
          { time := "", armed := false, current_time := 0 })) "current_time" = true := by
  refine ⟨rfl, rfl, rfl, ?_, rfl, rfl, rfl, rfl, ?_, rfl⟩
  · cases hal : s.alarm_time with
    | nil =>
      left
      exact ⟨rfl, by simp [Mux.currentAlarm, latestBy]⟩
    | cons a rest =>
      right
      rw [← hal]
      have hne : s.alarm_time ≠ [] := by rw [hal]; exact List.cons_ne_nil a rest
      exact mux_currentAlarm_spec hne
  · cases hal : se.alarm_time with
    | nil =>
      left
      exact ⟨rfl, by simp [Echo.currentAlarm, latestBy]⟩
    | cons a rest =>
      right
      rw [← hal]
      have hne : se.alarm_time ≠ [] := by rw [hal]; exact List.cons_ne_nil a rest
      exact echo_currentAlarm_spec hne

/-- C8: on a non-empty `alarm_time` table with distinct ids,
`POST /api/alarm/arm` with a well-formed boolean body returns 200 OK with
no body and sets the `armed` flag of exactly the row with maximum id: that
row keeps its `time` and id, every other `alarm_time` row is unchanged and
still present, the table keeps its length, and the other two tables are
untouched. -/
theorem C8_arm_updates_latest (s : Mux.Store) (b : Bool)
    (hne : s.alarm_time ≠ [])
    (hnodup : (s.alarm_time.map (fun r => r.id)).Nodup) :
    (Mux.setAlarmArmed s (some b)).status = 200 ∧
    (Mux.setAlarmArmed s (some b)).body = none ∧
    (Mux.setAlarmArmed s (some b)).store.device_status = s.device_status ∧
    (Mux.setAlarmArmed s (some b)).store.sensor_data = s.sensor_data ∧
    ∃ m ∈ s.alarm_time,
      (∀ x ∈ s.alarm_time, x.id ≤ m.id) ∧
      (∀ x ∈ s.alarm_time, x.id = m.id → x = m) ∧
      (Mux.setAlarmArmed s (some b)).store.alarm_time
        = s.alarm_time.map (fun r => if r.id = m.id then { r with armed := b } else r) ∧
      ({ id := m.id, time := m.time, armed := b } : Mux.AlarmRow)
        ∈ (Mux.setAlarmArmed s (some b)).store.alarm_time ∧
      (∀ r ∈ s.alarm_time, r.id ≠ m.id → r ∈ (Mux.setAlarmArmed s (some b)).store.alarm_time) ∧
      (Mux.setAlarmArmed s (some b)).store.alarm_time.length = s.alarm_time.length := by
  cases hl : latestBy (fun r : Mux.AlarmRow => r.id) s.alarm_time with
  | none => exact absurd ((latestBy_eq_none_iff _ _).mp hl) hne
  | some m =>
    have hmem := latestBy_mem _ hl
    have hmax := latestBy_le _ hl
    have hres : Mux.setAlarmArmed s (some b)
        = { status := 200, body := none,
            store := { s with
              alarm_time := s.alarm_time.map (fun r => if r.id = m.id then { r with armed := b } else r) } } := by
      simp only [Mux.setAlarmArmed, hl]
    rw [hres]
    refine ⟨rfl, rfl, rfl, rfl, m, hmem, hmax, ?_, rfl, ?_, ?_, ?_⟩
    · intro x hx hxid
      exact List.inj_on_of_nodup_map hnodup hx hmem hxid
    · refine List.mem_map.mpr ⟨m, hmem, ?_⟩
      rw [if_pos rfl]
    · intro r hr hrid
      refine List.mem_map.mpr ⟨r, hr, ?_⟩
      rw [if_neg hrid]
    · exact List.length_map _ _

/-- Witness for C8 at a two-row alarm table with body `true`. -/
theorem C8_arm_updates_latest_witness :
    (Mux.setAlarmArmed Mux.sampleStore (some true)).status = 200 ∧
    (Mux.setAlarmArmed Mux.sampleStore (some true)).body = none ∧
    (Mux.setAlarmArmed Mux.sampleStore (some true)).store.device_status
      = Mux.sampleStore.device_status ∧
    (Mux.setAlarmArmed Mux.sampleStore (some true)).store.sensor_data
      = Mux.sampleStore.sensor_data ∧
    ∃ m ∈ Mux.sampleStore.alarm_time,
      (∀ x ∈ Mux.sampleStore.alarm_time, x.id ≤ m.id) ∧
      (∀ x ∈ Mux.sampleStore.alarm_time, x.id = m.id → x = m) ∧
      (Mux.setAlarmArmed Mux.sampleStore (some true)).store.alarm_time
        = Mux.sampleStore.alarm_time.map
            (fun r => if r.id = m.id then { r with armed := true } else r) ∧
      ({ id := m.id, time := m.time, armed := true } : Mux.AlarmRow)
        ∈ (Mux.setAlarmArmed Mux.sampleStore (some true)).store.alarm_time ∧
      (∀ r ∈ Mux.sampleStore.alarm_time, r.id ≠ m.id →
        r ∈ (Mux.setAlarmArmed Mux.sampleStore (some true)).store.alarm_time) ∧
      (Mux.setAlarmArmed Mux.sampleStore (some true)).store.alarm_time.length
        = Mux.sampleStore.alarm_time.length :=
  C8_arm_updates_latest Mux.sampleStore true (by decide) (by decide)
